import Mathlib

/-! RoleBinding reconciliation and addon values of `pkg/addon/addon.go`.

A shallow embedding of `createOrUpdateRoleBinding` and `NewGetValuesFunc`.

* Kubernetes API objects are plain structures; a Go zero value is the default
  value of the field.
* A Go slice that takes part in a `reflect.DeepEqual` comparison is an
  `Option (List _)`: `none` is the nil slice, `some []` the empty non-nil one,
  so that structural equality of the Lean values is exactly `DeepEqual`.
* The Kubernetes client is an explicit state-passing interface: each call takes
  the remote state and returns its result together with the next remote state.
* A Go run-time abort (index out of range, `...OrDie`) is the value `none` of an
  `Option`; a returned `error` is an `Option ε` where `none` is Go's `nil`.
-/

namespace Addon

/-! ## Constants of `addon.go` -/

/-- Constant `WorkManagerAddonName` (addon.go, line 21). -/
def WorkManagerAddonName : String := "work-manager"

/-- Constant `clusterRoleName` (addon.go, line 23). -/
def clusterRoleName : String := "managed-cluster-workmgr"

/-- Constant `roleBindingName` (addon.go, line 24). -/
def roleBindingName : String := "managed-cluster-workmgr"

/-! ## Kubernetes API types (`k8s.io/api/rbac/v1`, `k8s.io/apimachinery`) -/

/-- A Go slice as `reflect.DeepEqual` observes it: `none` is the nil slice. -/
abbrev Slice (α : Type) : Type := Option (List α)

/-- Go's `append(s, x)`: the result is never the nil slice. -/
def Slice.append {α : Type} (s : Slice α) (x : α) : Slice α :=
  some (s.getD [] ++ [x])

/-- Go's `s[i]`, which aborts when `i` is out of range (`none`). -/
def Slice.index {α : Type} (s : Slice α) (i : Nat) : Option α :=
  (s.getD [])[i]?

/-- Go's `len(s)`. -/
def Slice.len {α : Type} (s : Slice α) : Nat :=
  (s.getD []).length

/-- The struct `metav1.TypeMeta`. -/
structure TypeMeta where
  Kind : String := ""
  APIVersion : String := ""
  deriving DecidableEq, Repr

/-- The struct `metav1.ObjectMeta`. A Go map is the list of its entries, a
pointer an `Option`; a time and an entry of a list of nested structs are kept
in their serialised form. The code compares none of these fields. -/
structure ObjectMeta where
  Name : String := ""
  GenerateName : String := ""
  Namespace : String := ""
  SelfLink : String := ""
  UID : String := ""
  ResourceVersion : String := ""
  Generation : Int := 0
  CreationTimestamp : String := ""
  DeletionTimestamp : Option String := none
  DeletionGracePeriodSeconds : Option Int := none
  Labels : List (String × String) := []
  Annotations : List (String × String) := []
  OwnerReferences : List String := []
  Finalizers : List String := []
  ManagedFields : List String := []
  deriving DecidableEq, Repr

/-- The struct `rbacv1.Subject`. -/
structure Subject where
  Kind : String := ""
  APIGroup : String := ""
  Name : String := ""
  Namespace : String := ""
  deriving DecidableEq, Repr

/-- The struct `rbacv1.RoleRef`. -/
structure RoleRef where
  APIGroup : String := ""
  Kind : String := ""
  Name : String := ""
  deriving DecidableEq, Repr

/-- The struct `rbacv1.RoleBinding`. -/
structure RoleBinding where
  TypeMeta : TypeMeta := {}
  ObjectMeta : ObjectMeta := {}
  Subjects : Slice Subject := none
  RoleRef : RoleRef := {}
  deriving DecidableEq, Repr

/-- Constant `rbacv1.GroupName`. -/
def GroupName : String := "rbac.authorization.k8s.io"

/-- Constant `rbacv1.GroupKind`. -/
def GroupKind : String := "Group"

/-! ## Collaborators that are not among the source files -/

/-- Modelled from the spec: `agent.DefaultGroups` of the addon-framework
library is not among the source files. The spec calls it a fixed
naming/grouping function of (clusterName, addonName); the model lists the
library's three default groups, the first of which is the per-cluster addon
group. -/
def DefaultGroups (clusterName addonName : String) : List String :=
  [ "system:open-cluster-management:cluster:" ++ clusterName ++ ":addon:" ++ addonName,
    "system:open-cluster-management:addon:" ++ addonName,
    "system:authenticated" ]

/-- Modelled from the spec: the builder type of `pkg/helpers`, which is not
among the source files; it wraps the RoleBinding under construction. -/
structure RoleBindingBuilder where
  RoleBinding : RoleBinding
  deriving DecidableEq, Repr

/-- Modelled from the spec: `helpers.NewRoleBindingForClusterRole` is not among
the source files. The desired binding has the given name and namespace and a
role reference of kind ClusterRole, in the RBAC API group, to the role of the
same name (spec, data model and external interfaces; the expected object of the
test "no update"). -/
def NewRoleBindingForClusterRole (roleName ns : String) : RoleBindingBuilder :=
  { RoleBinding :=
      { ObjectMeta := { Name := roleName, Namespace := ns }
        RoleRef := { APIGroup := GroupName, Kind := "ClusterRole", Name := roleName } } }

/-- Modelled from the spec: `RoleBindingBuilder.Groups` is not among the source
files. Each group name is appended as a subject of kind Group in the RBAC API
group (spec: subject list (kind, API group, name)). -/
def RoleBindingBuilder.Groups (r : RoleBindingBuilder) (groups : List String) :
    RoleBindingBuilder :=
  groups.foldl
    (fun b group =>
      { b with RoleBinding :=
          { b.RoleBinding with
            Subjects := b.RoleBinding.Subjects.append
              { Kind := GroupKind, APIGroup := GroupName, Name := group } } })
    r

/-- Modelled from the spec: `RoleBindingBuilder.BindingOrDie` is not among the
source files. It yields the binding built so far and aborts (`none`) when no
subject was added. -/
def RoleBindingBuilder.BindingOrDie (r : RoleBindingBuilder) : Option Addon.RoleBinding :=
  if r.RoleBinding.Subjects.len = 0 then none else some r.RoleBinding

/-- The interface `kubeClient.RbacV1().RoleBindings(ns)` of client-go, with the
namespace as first argument of each call and the remote state `σ` threaded
through. The behaviour of every call is arbitrary. -/
structure RoleBindingInterface (ε σ : Type) where
  Get : String → String → σ → Except ε RoleBinding × σ
  Create : String → RoleBinding → σ → Except ε RoleBinding × σ
  Update : String → RoleBinding → σ → Except ε RoleBinding × σ

/-! ## `createOrUpdateRoleBinding` (addon.go, lines 83-111) -/

/-- Lines 84-85: the local `acmRoleBinding`, the desired RoleBinding.
`groups[0]` aborts on an empty list and so does `BindingOrDie` on a binding
without subjects. -/
def acmRoleBinding (addonName clusterName : String) : Option RoleBinding :=
  let groups := DefaultGroups clusterName addonName
  match groups[0]? with
  | none => none
  | some g => ((NewRoleBindingForClusterRole clusterRoleName clusterName).Groups [g]).BindingOrDie

/-- Lines 96-104: the two `reflect.DeepEqual` tests on the fetched `binding`.
Returns `needUpdate` and the (possibly overwritten) binding. -/
def compareAndOverwrite (desired binding : RoleBinding) : Bool × RoleBinding :=
  let needUpdate := false
  let (needUpdate, binding) :=
    if ¬ (desired.RoleRef = binding.RoleRef) then
      (true, { binding with RoleRef := desired.RoleRef })
    else (needUpdate, binding)
  let (needUpdate, binding) :=
    if ¬ (desired.Subjects = binding.Subjects) then
      (true, { binding with Subjects := desired.Subjects })
    else (needUpdate, binding)
  (needUpdate, binding)

/-- The function `createOrUpdateRoleBinding`. `IsNotFound` is
`errors.IsNotFound` of apimachinery. The result is `none` when the Go code
aborts and otherwise the returned error (`none` for `nil`) with the remote
state left behind. -/
def createOrUpdateRoleBinding {ε σ : Type} (IsNotFound : ε → Bool)
    (kubeClient : RoleBindingInterface ε σ) (addonName clusterName : String) (s : σ) :
    Option (Option ε × σ) :=
  match acmRoleBinding addonName clusterName with
  | none => none
  | some desired =>
    -- role and rolebinding have the same name
    match kubeClient.Get clusterName roleBindingName s with
    | (Except.error err, s1) =>
      if IsNotFound err then
        match kubeClient.Create clusterName desired s1 with
        | (Except.error err2, s2) => some (some err2, s2)
        | (Except.ok _, s2) => some (none, s2)
      else some (some err, s1)
    | (Except.ok binding, s1) =>
      match compareAndOverwrite desired binding with
      | (true, binding) =>
        match kubeClient.Update clusterName binding s1 with
        | (Except.error err, s2) => some (some err, s2)
        | (Except.ok _, s2) => some (none, s2)
      | (false, _) => some (none, s1)

/-! ## Recording the calls, as `fakekube`'s `Actions()` does -/

/-- One recorded API call (`clienttesting.Action`). -/
inductive Action where
  | get (ns name : String)
  | create (ns : String) (obj : RoleBinding)
  | update (ns : String) (obj : RoleBinding)
  deriving DecidableEq, Repr

/-- Wraps a client so that every call is appended to a log kept beside the
remote state. -/
def recording {ε σ : Type} (c : RoleBindingInterface ε σ) :
    RoleBindingInterface ε (σ × List Action) where
  Get ns name st := ((c.Get ns name st.1).1, ((c.Get ns name st.1).2, st.2 ++ [Action.get ns name]))
  Create ns obj st :=
    ((c.Create ns obj st.1).1, ((c.Create ns obj st.1).2, st.2 ++ [Action.create ns obj]))
  Update ns obj st :=
    ((c.Update ns obj st.1).1, ((c.Update ns obj st.1).2, st.2 ++ [Action.update ns obj]))

/-- The log of calls a run leaves when started on remote state `s` with an
empty log, and `none` when the run aborts. -/
def Actions {ε σ : Type} (IsNotFound : ε → Bool) (c : RoleBindingInterface ε σ)
    (addonName clusterName : String) (s : σ) : Option (List Action) :=
  (createOrUpdateRoleBinding IsNotFound (recording c) addonName clusterName (s, [])).map
    (fun r => r.2.2)

/-- The error of a call result, `none` for Go's `nil`. -/
def errorOf {ε α : Type} : Except ε α → Option ε
  | Except.error err => some err
  | Except.ok _ => none

/-! ## A store of RoleBindings keyed by (namespace, name) -/

/-- The reason of an API status error (`metav1.StatusReason`). -/
inductive StatusReason where
  | Unknown
  | NotFound
  | AlreadyExists
  | BadRequest
  | Conflict
  | Forbidden
  | InternalError
  | ServerTimeout
  deriving DecidableEq, Repr

/-- An API status error (`errors.StatusError`). -/
structure StatusError where
  Reason : StatusReason
  Message : String := ""
  deriving DecidableEq, Repr

/-- The test `errors.IsNotFound` on status errors. -/
def IsNotFound (err : StatusError) : Bool :=
  decide (err.Reason = StatusReason.NotFound)

/-- The remote state: at most one RoleBinding per (namespace, name), each kept
under its own namespace and name. -/
structure Store where
  objects : String → String → Option RoleBinding
  keyed : ∀ ns name o, objects ns name = some o →
    o.ObjectMeta.Namespace = ns ∧ o.ObjectMeta.Name = name

/-- The store without objects. -/
def Store.empty : Store where
  objects _ _ := none
  keyed := by intro ns name o h; cases h

/-- Stores `obj` under its own namespace and name. -/
def Store.put (s : Store) (obj : RoleBinding) : Store where
  objects ns name :=
    if ns = obj.ObjectMeta.Namespace ∧ name = obj.ObjectMeta.Name then some obj
    else s.objects ns name
  keyed := by
    intro ns name o h
    beta_reduce at h
    by_cases hk : ns = obj.ObjectMeta.Namespace ∧ name = obj.ObjectMeta.Name
    · rw [if_pos hk] at h
      cases h
      exact ⟨hk.1.symm, hk.2.symm⟩
    · rw [if_neg hk] at h
      exact s.keyed ns name o h

/-- Failures of the remote API that do not come from the stored objects: for
each call an optional error with which the call fails, leaving the store as it
is. -/
structure Faults where
  get : String → String → Option StatusError
  create : String → RoleBinding → Option StatusError
  update : String → RoleBinding → Option StatusError

/-- No failure on any call. -/
def Faults.never : Faults where
  get _ _ := none
  create _ _ := none
  update _ _ := none

/-- No failure of Get; `create` and `update` give the failures of the writes. -/
def Faults.onWrites (create update : String → RoleBinding → Option StatusError) : Faults where
  get _ _ := none
  create := create
  update := update

/-- The client over a store. Get returns the stored object or NotFound; a
successful Create or Update stores the object it was given under that object's
name and namespace; a failed call changes nothing. Create refuses an existing
object, Update a missing one, and both an object whose namespace is not the
namespace of the request. -/
def storeClient (f : Faults) : RoleBindingInterface StatusError Store where
  Get ns name s :=
    match f.get ns name with
    | some err => (Except.error err, s)
    | none =>
      match s.objects ns name with
      | some obj => (Except.ok obj, s)
      | none => (Except.error { Reason := StatusReason.NotFound }, s)
  Create ns obj s :=
    match f.create ns obj with
    | some err => (Except.error err, s)
    | none =>
      if obj.ObjectMeta.Namespace ≠ ns then
        (Except.error { Reason := StatusReason.BadRequest }, s)
      else
        match s.objects ns obj.ObjectMeta.Name with
        | some _ => (Except.error { Reason := StatusReason.AlreadyExists }, s)
        | none => (Except.ok obj, s.put obj)
  Update ns obj s :=
    match f.update ns obj with
    | some err => (Except.error err, s)
    | none =>
      if obj.ObjectMeta.Namespace ≠ ns then
        (Except.error { Reason := StatusReason.BadRequest }, s)
      else
        match s.objects ns obj.ObjectMeta.Name with
        | some _ => (Except.ok obj, s.put obj)
        | none => (Except.error { Reason := StatusReason.NotFound }, s)

/-! ## `NewGetValuesFunc` (addon.go, lines 34-70) -/

/-- The struct `clusterv1.ManagedClusterClaim`. -/
structure ManagedClusterClaim where
  Name : String := ""
  Value : String := ""
  deriving DecidableEq, Repr

/-- The struct `clusterv1.ManagedClusterStatus`, with the claim list the code
reads. -/
structure ManagedClusterStatus where
  ClusterClaims : List ManagedClusterClaim := []
  deriving DecidableEq, Repr

/-- The struct `clusterv1.ManagedCluster`. -/
structure ManagedCluster where
  ObjectMeta : ObjectMeta := {}
  Status : ManagedClusterStatus := {}
  deriving DecidableEq, Repr

/-- The struct `addonapiv1alpha1.ManagedClusterAddOn`, with its install
namespace. -/
structure ManagedClusterAddOn where
  ObjectMeta : ObjectMeta := {}
  InstallNamespace : String := ""
  deriving DecidableEq, Repr

/-- Constant `corev1.PullIfNotPresent`. -/
def PullIfNotPresent : String := "IfNotPresent"

/-- The struct `GlobalValues` (lines 34-39); a Go map is the list of its
entries. -/
structure GlobalValues where
  ImagePullPolicy : String := ""
  ImagePullSecret : String := ""
  ImageOverrides : List (String × String) := []
  NodeSelector : List (String × String) := []
  deriving DecidableEq, Repr

/-- The struct `Values` (lines 41-44). -/
structure Values where
  IsOCP : Bool := false
  GlobalValues : GlobalValues := {}
  deriving DecidableEq, Repr

/-- Lines 49-63: the local `addonValues` as it stands when it is handed to
`JsonStructToValues`: the literal, then the loop over the cluster claims. -/
def addonValues (imageName : String) (cluster : ManagedCluster) : Values :=
  let addonValues : Values :=
    { GlobalValues :=
        { ImagePullPolicy := PullIfNotPresent
          ImagePullSecret := "open-cluster-management-image-pull-credentials"
          ImageOverrides := [("multicloud_manager", imageName)]
          NodeSelector := [] } }
  cluster.Status.ClusterClaims.foldl
    (fun addonValues claim =>
      if claim.Name = "product.open-cluster-management.io" ∧ claim.Value = "OpenShift" then
        { addonValues with IsOCP := true }
      else addonValues)
    addonValues

/-- The function returned by `NewGetValuesFunc imageName`, applied to a cluster
and an addon. `JsonStructToValues` is the serialiser of the addon-framework
library. -/
def NewGetValuesFunc {ε V : Type} (JsonStructToValues : Values → Except ε V)
    (imageName : String) (cluster : ManagedCluster) (_addon : ManagedClusterAddOn) :
    Except ε V :=
  match JsonStructToValues (addonValues imageName cluster) with
  | Except.error err => Except.error err
  | Except.ok values => Except.ok values

/-! ## Objects of the tests (addon_test.go) -/

/-- The initial object of the test "no update" (addon_test.go, lines 205-222). -/
def testNoUpdateObject : RoleBinding :=
  { ObjectMeta := { Name := clusterRoleName, Namespace := "cluster1" }
    Subjects := some
      [{ Kind := GroupKind, APIGroup := "rbac.authorization.k8s.io",
         Name := (DefaultGroups "cluster1" "work-manager").headD "" }]
    RoleRef := { APIGroup := "rbac.authorization.k8s.io", Kind := "ClusterRole",
                 Name := clusterRoleName } }

/-- The initial object of the test "update rolebinding" (addon_test.go, lines
234-251). -/
def testUpdateObject : RoleBinding :=
  { ObjectMeta := { Name := clusterRoleName, Namespace := "cluster1" }
    Subjects := some
      [{ Kind := GroupKind, APIGroup := "rbac.authorization.k8s.io", Name := "test" }]
    RoleRef := { APIGroup := "rbac.authorization.k8s.io", Kind := "ClusterRole",
                 Name := clusterRoleName } }

/-- The object of the test "update rolebinding" with a label and a resource
version added, as a stored object carries them. -/
def labelledUpdateObject : RoleBinding :=
  { testUpdateObject with
    ObjectMeta := { testUpdateObject.ObjectMeta with
      ResourceVersion := "7", Labels := [("owner", "ops")] } }

/-- The cluster built by `newCluster name ocp` (addon_test.go, lines 34-51). -/
def newCluster (name : String) (ocp : Bool) : ManagedCluster :=
  let cluster : ManagedCluster := { ObjectMeta := { Name := name } }
  if ocp then
    { cluster with
      Status :=
        { ClusterClaims :=
            [{ Name := "product.open-cluster-management.io", Value := "OpenShift" }] } }
  else cluster

/-! ## Lemmas on the desired binding and the comparison -/

theorem acmRoleBinding_eq (addonName clusterName : String) :
    acmRoleBinding addonName clusterName = some
      { ObjectMeta := { Name := clusterRoleName, Namespace := clusterName }
        Subjects := some [{ Kind := GroupKind, APIGroup := GroupName,
                            Name := "system:open-cluster-management:cluster:" ++ clusterName
                              ++ ":addon:" ++ addonName }]
        RoleRef := { APIGroup := GroupName, Kind := "ClusterRole", Name := clusterRoleName } } :=
  rfl

theorem acmRoleBinding_meta (addonName clusterName : String) (d : RoleBinding)
    (hd : acmRoleBinding addonName clusterName = some d) :
    d.ObjectMeta.Namespace = clusterName ∧ d.ObjectMeta.Name = roleBindingName := by
  rw [acmRoleBinding_eq] at hd
  cases hd
  exact ⟨rfl, rfl⟩

theorem compareAndOverwrite_fst (d b : RoleBinding) :
    (compareAndOverwrite d b).1 = true ↔ (d.RoleRef ≠ b.RoleRef ∨ d.Subjects ≠ b.Subjects) := by
  unfold compareAndOverwrite
  by_cases h1 : d.RoleRef = b.RoleRef <;> by_cases h2 : d.Subjects = b.Subjects <;> simp [h1, h2]

theorem compareAndOverwrite_fst_false (d b : RoleBinding) :
    (compareAndOverwrite d b).1 = false ↔ (d.RoleRef = b.RoleRef ∧ d.Subjects = b.Subjects) := by
  unfold compareAndOverwrite
  by_cases h1 : d.RoleRef = b.RoleRef <;> by_cases h2 : d.Subjects = b.Subjects <;> simp [h1, h2]

theorem compareAndOverwrite_snd (d b : RoleBinding) :
    (compareAndOverwrite d b).2 = { b with RoleRef := d.RoleRef, Subjects := d.Subjects } := by
  unfold compareAndOverwrite
  by_cases h1 : d.RoleRef = b.RoleRef <;> by_cases h2 : d.Subjects = b.Subjects <;> simp [h1, h2]

/-! ## The four paths of a run, with the calls recorded -/

theorem run_create {ε σ : Type} (IsNotFound : ε → Bool) (c : RoleBindingInterface ε σ)
    (addonName clusterName : String) (s s1 : σ) (log : List Action) (e : ε) (d : RoleBinding)
    (hd : acmRoleBinding addonName clusterName = some d)
    (hget : c.Get clusterName roleBindingName s = (Except.error e, s1))
    (hnf : IsNotFound e = true) :
    createOrUpdateRoleBinding IsNotFound (recording c) addonName clusterName (s, log) =
      some (errorOf (c.Create clusterName d s1).1,
        ((c.Create clusterName d s1).2,
          log ++ [Action.get clusterName roleBindingName, Action.create clusterName d])) := by
  unfold createOrUpdateRoleBinding
  rw [hd]
  simp only [recording, hget, hnf]
  rcases hc : c.Create clusterName d s1 with ⟨r, s2⟩
  cases r <;> simp [errorOf]

theorem run_get_failed {ε σ : Type} (IsNotFound : ε → Bool) (c : RoleBindingInterface ε σ)
    (addonName clusterName : String) (s s1 : σ) (log : List Action) (e : ε)
    (hget : c.Get clusterName roleBindingName s = (Except.error e, s1))
    (hnf : IsNotFound e = false) :
    createOrUpdateRoleBinding IsNotFound (recording c) addonName clusterName (s, log) =
      some (some e, (s1, log ++ [Action.get clusterName roleBindingName])) := by
  unfold createOrUpdateRoleBinding
  rw [acmRoleBinding_eq]
  simp [recording, hget, hnf]

theorem run_update {ε σ : Type} (IsNotFound : ε → Bool) (c : RoleBindingInterface ε σ)
    (addonName clusterName : String) (s s1 : σ) (log : List Action) (b d : RoleBinding)
    (hd : acmRoleBinding addonName clusterName = some d)
    (hget : c.Get clusterName roleBindingName s = (Except.ok b, s1))
    (hneed : (compareAndOverwrite d b).1 = true) :
    createOrUpdateRoleBinding IsNotFound (recording c) addonName clusterName (s, log) =
      some (errorOf (c.Update clusterName (compareAndOverwrite d b).2 s1).1,
        ((c.Update clusterName (compareAndOverwrite d b).2 s1).2,
          log ++ [Action.get clusterName roleBindingName,
                  Action.update clusterName (compareAndOverwrite d b).2])) := by
  unfold createOrUpdateRoleBinding
  rw [hd]
  simp only [recording, hget]
  rcases hcmp : compareAndOverwrite d b with ⟨n, b2⟩
  rw [hcmp] at hneed
  simp only at hneed
  subst hneed
  simp only
  rcases hu : c.Update clusterName b2 s1 with ⟨r, s2⟩
  cases r <;> simp [errorOf]

theorem run_unchanged {ε σ : Type} (IsNotFound : ε → Bool) (c : RoleBindingInterface ε σ)
    (addonName clusterName : String) (s s1 : σ) (log : List Action) (b d : RoleBinding)
    (hd : acmRoleBinding addonName clusterName = some d)
    (hget : c.Get clusterName roleBindingName s = (Except.ok b, s1))
    (hneed : (compareAndOverwrite d b).1 = false) :
    createOrUpdateRoleBinding IsNotFound (recording c) addonName clusterName (s, log) =
      some (none, (s1, log ++ [Action.get clusterName roleBindingName])) := by
  unfold createOrUpdateRoleBinding
  rw [hd]
  simp only [recording, hget]
  rcases hcmp : compareAndOverwrite d b with ⟨n, b2⟩
  rw [hcmp] at hneed
  simp only at hneed
  subst hneed
  simp

/-- Recording does not change what a run returns nor the remote state it
leaves. -/
theorem recording_run {ε σ : Type} (IsNotFound : ε → Bool) (c : RoleBindingInterface ε σ)
    (addonName clusterName : String) (s : σ) (log : List Action) :
    (createOrUpdateRoleBinding IsNotFound (recording c) addonName clusterName (s, log)).map
        (fun r => (r.1, r.2.1)) =
      createOrUpdateRoleBinding IsNotFound c addonName clusterName s := by
  unfold createOrUpdateRoleBinding
  rw [acmRoleBinding_eq]
  simp only [recording]
  rcases hget : c.Get clusterName roleBindingName s with ⟨r, s1⟩
  cases r with
  | error e =>
    simp only
    cases hnf : IsNotFound e with
    | false => simp
    | true =>
      simp only [if_true]
      generalize hc : c.Create clusterName _ s1 = rc
      rcases rc with ⟨r2, s2⟩
      cases r2 <;> simp
  | ok b =>
    simp only
    generalize hcmp : compareAndOverwrite _ b = cmp
    rcases cmp with ⟨n, b2⟩
    cases n with
    | false => simp
    | true =>
      simp only
      rcases hu : c.Update clusterName b2 s1 with ⟨r2, s2⟩
      cases r2 <;> simp

/-! ## Lemmas on the store client -/

theorem plain_of_recorded {ε σ : Type} (IsNotFound : ε → Bool) (c : RoleBindingInterface ε σ)
    (addonName clusterName : String) (s s2 : σ) (err : Option ε) (acts : List Action)
    (h : createOrUpdateRoleBinding IsNotFound (recording c) addonName clusterName (s, []) =
      some (err, (s2, acts))) :
    createOrUpdateRoleBinding IsNotFound c addonName clusterName s = some (err, s2) := by
  have hplain := recording_run IsNotFound c addonName clusterName s []
  rw [h] at hplain
  simpa using hplain.symm

theorem Store.ext_objects (s t : Store) (h : ∀ ns name, s.objects ns name = t.objects ns name) :
    s = t := by
  cases s with
  | mk so sk =>
    cases t with
    | mk to2 tk =>
      have : so = to2 := funext (fun ns => funext (fun name => h ns name))
      subst this
      rfl

theorem Store.put_objects (s : Store) (obj : RoleBinding) (ns name : String) :
    (s.put obj).objects ns name =
      if ns = obj.ObjectMeta.Namespace ∧ name = obj.ObjectMeta.Name then some obj
      else s.objects ns name := rfl

theorem Store.put_other (s : Store) (obj : RoleBinding) (ns name : String)
    (h : ¬ (ns = obj.ObjectMeta.Namespace ∧ name = obj.ObjectMeta.Name)) :
    (s.put obj).objects ns name = s.objects ns name := by
  rw [Store.put_objects, if_neg h]

theorem Store.put_same (s : Store) (obj : RoleBinding) :
    (s.put obj).objects obj.ObjectMeta.Namespace obj.ObjectMeta.Name = some obj := by
  rw [Store.put_objects, if_pos ⟨rfl, rfl⟩]

/-- What a Create of an object keyed (c, roleBindingName) does on every store
that holds the same object under that key. -/
theorem store_create_local (f : Faults) (c : String) (d : RoleBinding) (s : Store)
    (hns : d.ObjectMeta.Namespace = c) (hname : d.ObjectMeta.Name = roleBindingName) :
    ∃ (err : Option StatusError) (u : Option RoleBinding),
      (u = none ∨ (u = some d ∧ err = none)) ∧ (err = none → u = some d) ∧
      ∀ t : Store, t.objects c roleBindingName = s.objects c roleBindingName →
        errorOf ((storeClient f).Create c d t).1 = err ∧
        ((storeClient f).Create c d t).2 = u.elim t t.put := by
  cases hf : f.create c d with
  | some e =>
    refine ⟨some e, none, Or.inl rfl, by simp, ?_⟩
    intro t _
    simp [storeClient, hf, errorOf]
  | none =>
    cases hs : s.objects c roleBindingName with
    | some o =>
      refine ⟨some { Reason := StatusReason.AlreadyExists }, none, Or.inl rfl, by simp, ?_⟩
      intro t ht
      simp [storeClient, hf, hns, hname, ht, errorOf]
    | none =>
      refine ⟨none, some d, Or.inr ⟨rfl, rfl⟩, by simp, ?_⟩
      intro t ht
      simp [storeClient, hf, hns, hname, ht, errorOf]

theorem store_update_local (f : Faults) (c : String) (b o : RoleBinding) (s : Store)
    (hns : b.ObjectMeta.Namespace = c) (hname : b.ObjectMeta.Name = roleBindingName)
    (hs : s.objects c roleBindingName = some o) :
    ∃ (err : Option StatusError) (u : Option RoleBinding),
      (u = none ∨ (u = some b ∧ err = none)) ∧ (err = none → u = some b) ∧
      ∀ t : Store, t.objects c roleBindingName = s.objects c roleBindingName →
        errorOf ((storeClient f).Update c b t).1 = err ∧
        ((storeClient f).Update c b t).2 = u.elim t t.put := by
  cases hf : f.update c b with
  | some e =>
    refine ⟨some e, none, Or.inl rfl, by simp, ?_⟩
    intro t _
    simp [storeClient, hf, errorOf]
  | none =>
    refine ⟨none, some b, Or.inr ⟨rfl, rfl⟩, by simp, ?_⟩
    intro t ht
    rw [hs] at ht
    simp [storeClient, hf, hns, hname, ht, errorOf]

theorem Store.put_comm (s : Store) (o1 o2 : RoleBinding)
    (h : o1.ObjectMeta.Namespace ≠ o2.ObjectMeta.Namespace) :
    (s.put o1).put o2 = (s.put o2).put o1 := by
  apply Store.ext_objects
  intro ns name
  simp only [Store.put_objects]
  by_cases h1 : ns = o1.ObjectMeta.Namespace ∧ name = o1.ObjectMeta.Name
  · have h2 : ¬ (ns = o2.ObjectMeta.Namespace ∧ name = o2.ObjectMeta.Name) := by
      intro h2
      exact h (h1.1.symm.trans h2.1)
    simp only [if_neg h2, if_pos h1]
  · simp only [if_neg h1]

/-- What a run over the store does, on every store that holds the same object
under (c, roleBindingName): the returned error `err` and the object `u` put, if
any. -/
theorem store_run_spec (f : Faults) (a c : String) (s : Store) (d : RoleBinding)
    (hd : acmRoleBinding a c = some d) :
    ∃ (err : Option StatusError) (u : Option RoleBinding),
      (∀ obj, u = some obj →
        obj.ObjectMeta.Namespace = c ∧ obj.ObjectMeta.Name = roleBindingName) ∧
      (err = none →
        (∃ obj, u = some obj ∧ obj.RoleRef = d.RoleRef ∧ obj.Subjects = d.Subjects) ∨
        (u = none ∧ ∃ o, s.objects c roleBindingName = some o ∧
          o.RoleRef = d.RoleRef ∧ o.Subjects = d.Subjects)) ∧
      ∀ t : Store, t.objects c roleBindingName = s.objects c roleBindingName →
        createOrUpdateRoleBinding IsNotFound (storeClient f) a c t =
          some (err, u.elim t t.put) := by
  have hdm := acmRoleBinding_meta a c d hd
  -- the path through Create, shared by an injected and a genuine NotFound
  have hcreate : ∀ e : StatusError, IsNotFound e = true →
      (∀ t : Store, t.objects c roleBindingName = s.objects c roleBindingName →
        (storeClient f).Get c roleBindingName t = (Except.error e, t)) →
      ∃ (err : Option StatusError) (u : Option RoleBinding),
        (∀ obj, u = some obj →
          obj.ObjectMeta.Namespace = c ∧ obj.ObjectMeta.Name = roleBindingName) ∧
        (err = none →
          (∃ obj, u = some obj ∧ obj.RoleRef = d.RoleRef ∧ obj.Subjects = d.Subjects) ∨
          (u = none ∧ ∃ o, s.objects c roleBindingName = some o ∧
            o.RoleRef = d.RoleRef ∧ o.Subjects = d.Subjects)) ∧
        ∀ t : Store, t.objects c roleBindingName = s.objects c roleBindingName →
          createOrUpdateRoleBinding IsNotFound (storeClient f) a c t =
            some (err, u.elim t t.put) := by
    intro e hnf hget
    obtain ⟨err, u, hu, hsome, hloc⟩ := store_create_local f c d s hdm.1 hdm.2
    refine ⟨err, u, ?_, ?_, ?_⟩
    · intro obj hobj
      rcases hu with hu | ⟨hu, _⟩
      · rw [hu] at hobj; cases hobj
      · rw [hu] at hobj; cases hobj; exact hdm
    · intro herr
      exact Or.inl ⟨d, hsome herr, rfl, rfl⟩
    · intro t ht
      have hrun := plain_of_recorded IsNotFound (storeClient f) a c t _ _ _
        (run_create IsNotFound (storeClient f) a c t t [] e d hd (hget t ht) hnf)
      rw [(hloc t ht).1, (hloc t ht).2] at hrun
      exact hrun
  cases hg : f.get c roleBindingName with
  | some e =>
    have hget : ∀ t : Store, (storeClient f).Get c roleBindingName t = (Except.error e, t) := by
      intro t
      simp [storeClient, hg]
    cases hnf : IsNotFound e with
    | true => exact hcreate e hnf (fun t _ => hget t)
    | false =>
      refine ⟨some e, none, by simp, by simp, ?_⟩
      intro t _
      exact plain_of_recorded IsNotFound (storeClient f) a c t _ _ _
        (run_get_failed IsNotFound (storeClient f) a c t t [] e (hget t) hnf)
  | none =>
    cases hs : s.objects c roleBindingName with
    | none =>
      have hc := hcreate { Reason := StatusReason.NotFound } rfl
      rw [hs] at hc
      apply hc
      intro t ht
      simp [storeClient, hg, ht]
    | some b =>
      have hb := s.keyed c roleBindingName b hs
      have hget : ∀ t : Store, t.objects c roleBindingName = some b →
          (storeClient f).Get c roleBindingName t = (Except.ok b, t) := by
        intro t ht
        simp [storeClient, hg, ht]
      cases hneed : (compareAndOverwrite d b).1 with
      | false =>
        refine ⟨none, none, by simp, ?_, ?_⟩
        · intro _
          exact Or.inr ⟨rfl, b, rfl,
            ((compareAndOverwrite_fst_false d b).1 hneed).1.symm,
            ((compareAndOverwrite_fst_false d b).1 hneed).2.symm⟩
        · intro t ht
          exact plain_of_recorded IsNotFound (storeClient f) a c t _ _ _
            (run_unchanged IsNotFound (storeClient f) a c t t [] b d hd (hget t ht) hneed)
      | true =>
        have hsnd := compareAndOverwrite_snd d b
        have hns : (compareAndOverwrite d b).2.ObjectMeta.Namespace = c := by
          rw [hsnd]; exact hb.1
        have hname : (compareAndOverwrite d b).2.ObjectMeta.Name = roleBindingName := by
          rw [hsnd]; exact hb.2
        obtain ⟨err, u, hu, hsome, hloc⟩ :=
          store_update_local f c (compareAndOverwrite d b).2 b s hns hname hs
        rw [hs] at hloc
        refine ⟨err, u, ?_, ?_, ?_⟩
        · intro obj hobj
          rcases hu with hu | ⟨hu, _⟩
          · rw [hu] at hobj; cases hobj
          · rw [hu] at hobj; cases hobj; exact ⟨hns, hname⟩
        · intro herr
          refine Or.inl ⟨_, hsome herr, ?_, ?_⟩
          · rw [hsnd]
          · rw [hsnd]
        · intro t ht
          have hrun := plain_of_recorded IsNotFound (storeClient f) a c t _ _ _
            (run_update IsNotFound (storeClient f) a c t t [] b d hd (hget t ht) hneed)
          rw [(hloc t ht).1, (hloc t ht).2] at hrun
          exact hrun

/-! ## The desired binding -/

/-- C7: the desired RoleBinding is a function of (clusterName, addonName) alone:
it is always produced (indexing element 0 of the group list and `BindingOrDie`
never abort), has name "managed-cluster-workmgr", namespace clusterName, the
role reference {rbac.authorization.k8s.io, ClusterRole,
"managed-cluster-workmgr"} and exactly one subject {Group,
rbac.authorization.k8s.io, DefaultGroups(clusterName, addonName)[0]}. -/
theorem desired_binding_shape (addonName clusterName : String) :
    ∃ g, (DefaultGroups clusterName addonName)[0]? = some g ∧
      acmRoleBinding addonName clusterName = some
        { TypeMeta := {}
          ObjectMeta := { Name := "managed-cluster-workmgr", Namespace := clusterName }
          Subjects := some
            [{ Kind := "Group", APIGroup := "rbac.authorization.k8s.io", Name := g }]
          RoleRef := { APIGroup := "rbac.authorization.k8s.io", Kind := "ClusterRole",
                       Name := "managed-cluster-workmgr" } } :=
  ⟨_, rfl, rfl⟩

/-! ## The paths of `createOrUpdateRoleBinding` over an arbitrary client -/

/-- C1: when the Get of "managed-cluster-workmgr" in namespace clusterName fails
with a NotFound error, the run issues the Get and then exactly one Create in
namespace clusterName and no Update; the created object is the desired
RoleBinding, whose first subject is named DefaultGroups(clusterName,
addonName)[0]; the value returned is the outcome of the Create (nil on success,
the Create error otherwise). -/
theorem create_on_not_found {ε σ : Type} (IsNotFound : ε → Bool)
    (kubeClient : RoleBindingInterface ε σ) (addonName clusterName : String) (s s1 : σ) (e : ε)
    (hget : kubeClient.Get clusterName roleBindingName s = (Except.error e, s1))
    (hnf : IsNotFound e = true) :
    ∃ desired sub, acmRoleBinding addonName clusterName = some desired ∧
      desired.Subjects.index 0 = some sub ∧
      (DefaultGroups clusterName addonName)[0]? = some sub.Name ∧
      createOrUpdateRoleBinding IsNotFound (recording kubeClient) addonName clusterName (s, []) =
        some (errorOf (kubeClient.Create clusterName desired s1).1,
          ((kubeClient.Create clusterName desired s1).2,
            [Action.get clusterName roleBindingName, Action.create clusterName desired])) := by
  refine ⟨_, _, acmRoleBinding_eq addonName clusterName, rfl, rfl, ?_⟩
  simpa using run_create IsNotFound kubeClient addonName clusterName s s1 [] e _
    (acmRoleBinding_eq addonName clusterName) hget hnf

/-- Witness of C1: the test "create a new rolebinding", on the empty store. -/
theorem create_on_not_found_witness :
    ((storeClient Faults.never).Get "cluster1" roleBindingName Store.empty =
        (Except.error { Reason := StatusReason.NotFound }, Store.empty)) ∧
    IsNotFound { Reason := StatusReason.NotFound } = true ∧
    ∃ desired sub, acmRoleBinding "work-manager" "cluster1" = some desired ∧
      desired.Subjects.index 0 = some sub ∧
      (DefaultGroups "cluster1" "work-manager")[0]? = some sub.Name ∧
      createOrUpdateRoleBinding IsNotFound (recording (storeClient Faults.never))
          "work-manager" "cluster1" (Store.empty, []) =
        some (errorOf ((storeClient Faults.never).Create "cluster1" desired Store.empty).1,
          (((storeClient Faults.never).Create "cluster1" desired Store.empty).2,
            [Action.get "cluster1" roleBindingName, Action.create "cluster1" desired])) :=
  ⟨rfl, rfl,
    create_on_not_found IsNotFound (storeClient Faults.never) "work-manager" "cluster1"
      Store.empty Store.empty { Reason := StatusReason.NotFound } rfl rfl⟩

/-- C2: when Get returns an object whose roleRef or subjects differ from the
desired ones, the run issues the Get and then exactly one Update and no Create;
the object sent has the desired subjects and the desired roleRef (a roleRef that
was already right is thereby unchanged); the value returned is the outcome of
the Update. -/
theorem update_on_difference {ε σ : Type} (IsNotFound : ε → Bool)
    (kubeClient : RoleBindingInterface ε σ) (addonName clusterName : String) (s s1 : σ)
    (binding : RoleBinding)
    (hget : kubeClient.Get clusterName roleBindingName s = (Except.ok binding, s1))
    (hdiff : (acmRoleBinding addonName clusterName).map (fun d => d.RoleRef)
          ≠ some binding.RoleRef ∨
        (acmRoleBinding addonName clusterName).map (fun d => d.Subjects)
          ≠ some binding.Subjects) :
    ∃ desired sent, acmRoleBinding addonName clusterName = some desired ∧
      sent.Subjects = desired.Subjects ∧ sent.RoleRef = desired.RoleRef ∧
      (desired.RoleRef = binding.RoleRef → sent.RoleRef = binding.RoleRef) ∧
      createOrUpdateRoleBinding IsNotFound (recording kubeClient) addonName clusterName (s, []) =
        some (errorOf (kubeClient.Update clusterName sent s1).1,
          ((kubeClient.Update clusterName sent s1).2,
            [Action.get clusterName roleBindingName, Action.update clusterName sent])) := by
  obtain ⟨d, hd⟩ : ∃ d, acmRoleBinding addonName clusterName = some d :=
    ⟨_, acmRoleBinding_eq addonName clusterName⟩
  have hneed : (compareAndOverwrite d binding).1 = true := by
    rw [compareAndOverwrite_fst]
    rw [hd] at hdiff
    simpa using hdiff
  refine ⟨d, (compareAndOverwrite d binding).2, hd, ?_, ?_, ?_, ?_⟩
  · rw [compareAndOverwrite_snd]
  · rw [compareAndOverwrite_snd]
  · intro h
    rw [compareAndOverwrite_snd]
    exact h
  · simpa using run_update IsNotFound kubeClient addonName clusterName s s1 [] binding d hd
      hget hneed

/-- Witness of C2: the test "update rolebinding". -/
theorem update_on_difference_witness :
    ((storeClient Faults.never).Get "cluster1" roleBindingName
        (Store.empty.put testUpdateObject) =
        (Except.ok testUpdateObject, Store.empty.put testUpdateObject)) ∧
    ((acmRoleBinding "work-manager" "cluster1").map (fun d => d.RoleRef)
          ≠ some testUpdateObject.RoleRef ∨
        (acmRoleBinding "work-manager" "cluster1").map (fun d => d.Subjects)
          ≠ some testUpdateObject.Subjects) ∧
    ∃ desired sent, acmRoleBinding "work-manager" "cluster1" = some desired ∧
      sent.Subjects = desired.Subjects ∧ sent.RoleRef = desired.RoleRef ∧
      (desired.RoleRef = testUpdateObject.RoleRef → sent.RoleRef = testUpdateObject.RoleRef) ∧
      createOrUpdateRoleBinding IsNotFound (recording (storeClient Faults.never))
          "work-manager" "cluster1" (Store.empty.put testUpdateObject, []) =
        some (errorOf ((storeClient Faults.never).Update "cluster1" sent
              (Store.empty.put testUpdateObject)).1,
          (((storeClient Faults.never).Update "cluster1" sent
              (Store.empty.put testUpdateObject)).2,
            [Action.get "cluster1" roleBindingName, Action.update "cluster1" sent])) :=
  ⟨rfl, Or.inr (by decide),
    update_on_difference IsNotFound (storeClient Faults.never) "work-manager" "cluster1"
      (Store.empty.put testUpdateObject) (Store.empty.put testUpdateObject) testUpdateObject
      rfl (Or.inr (by decide))⟩

/-- C3: when Get returns an object whose roleRef and subjects both equal the
desired ones, the Get is the only call (no Create, no Update) and nil is
returned, whatever the other fields of the object are. -/
theorem no_write_on_match {ε σ : Type} (IsNotFound : ε → Bool)
    (kubeClient : RoleBindingInterface ε σ) (addonName clusterName : String) (s s1 : σ)
    (binding : RoleBinding)
    (hget : kubeClient.Get clusterName roleBindingName s = (Except.ok binding, s1))
    (hsame : (acmRoleBinding addonName clusterName).map (fun d => d.RoleRef)
          = some binding.RoleRef ∧
        (acmRoleBinding addonName clusterName).map (fun d => d.Subjects)
          = some binding.Subjects) :
    createOrUpdateRoleBinding IsNotFound (recording kubeClient) addonName clusterName (s, []) =
      some (none, (s1, [Action.get clusterName roleBindingName])) := by
  obtain ⟨d, hd⟩ : ∃ d, acmRoleBinding addonName clusterName = some d :=
    ⟨_, acmRoleBinding_eq addonName clusterName⟩
  have hneed : (compareAndOverwrite d binding).1 = false := by
    rw [compareAndOverwrite_fst_false]
    rw [hd] at hsame
    simpa using hsame
  simpa using run_unchanged IsNotFound kubeClient addonName clusterName s s1 [] binding d hd
    hget hneed

/-- Witness of C3: the test "no update". -/
theorem no_write_on_match_witness :
    ((storeClient Faults.never).Get "cluster1" roleBindingName
        (Store.empty.put testNoUpdateObject) =
        (Except.ok testNoUpdateObject, Store.empty.put testNoUpdateObject)) ∧
    ((acmRoleBinding "work-manager" "cluster1").map (fun d => d.RoleRef)
          = some testNoUpdateObject.RoleRef ∧
        (acmRoleBinding "work-manager" "cluster1").map (fun d => d.Subjects)
          = some testNoUpdateObject.Subjects) ∧
    createOrUpdateRoleBinding IsNotFound (recording (storeClient Faults.never))
        "work-manager" "cluster1" (Store.empty.put testNoUpdateObject, []) =
      some (none, (Store.empty.put testNoUpdateObject,
        [Action.get "cluster1" roleBindingName])) :=
  ⟨rfl, ⟨rfl, rfl⟩,
    no_write_on_match IsNotFound (storeClient Faults.never) "work-manager" "cluster1"
      (Store.empty.put testNoUpdateObject) (Store.empty.put testNoUpdateObject)
      testNoUpdateObject rfl ⟨rfl, rfl⟩⟩

/-- C4: when Get fails with an error that is not NotFound, that very error is
returned and the Get is the only call: no Create and no Update is issued, and
the remote state is the one the Get left. -/
theorem get_error_propagated {ε σ : Type} (IsNotFound : ε → Bool)
    (kubeClient : RoleBindingInterface ε σ) (addonName clusterName : String) (s s1 : σ) (e : ε)
    (hget : kubeClient.Get clusterName roleBindingName s = (Except.error e, s1))
    (hnf : IsNotFound e = false) :
    createOrUpdateRoleBinding IsNotFound (recording kubeClient) addonName clusterName (s, []) =
      some (some e, (s1, [Action.get clusterName roleBindingName])) := by
  simpa using run_get_failed IsNotFound kubeClient addonName clusterName s s1 [] e hget hnf

/-- Witness of C4: a store whose Get fails with an internal error. -/
theorem get_error_propagated_witness :
    ((storeClient { Faults.never with
          get := fun _ _ => some { Reason := StatusReason.InternalError } }).Get
        "cluster1" roleBindingName (Store.empty.put testUpdateObject) =
      (Except.error { Reason := StatusReason.InternalError },
        Store.empty.put testUpdateObject)) ∧
    IsNotFound { Reason := StatusReason.InternalError } = false ∧
    createOrUpdateRoleBinding IsNotFound
        (recording (storeClient { Faults.never with
          get := fun _ _ => some { Reason := StatusReason.InternalError } }))
        "work-manager" "cluster1" (Store.empty.put testUpdateObject, []) =
      some (some { Reason := StatusReason.InternalError },
        (Store.empty.put testUpdateObject, [Action.get "cluster1" roleBindingName])) :=
  ⟨rfl, rfl,
    get_error_propagated IsNotFound _ "work-manager" "cluster1"
      (Store.empty.put testUpdateObject) (Store.empty.put testUpdateObject)
      { Reason := StatusReason.InternalError } rfl rfl⟩

/-- C6: whatever the client does, a run issues exactly one Get, first, and then
at most one write: the calls are the Get alone, or the Get and one Create, or
the Get and one Update; no call is repeated. The recorded run returns what the
plain run returns. -/
theorem one_get_then_at_most_one_write {ε σ : Type} (IsNotFound : ε → Bool)
    (kubeClient : RoleBindingInterface ε σ) (addonName clusterName : String) (s : σ) :
    ∃ err s2 acts,
      createOrUpdateRoleBinding IsNotFound (recording kubeClient) addonName clusterName (s, []) =
        some (err, (s2, acts)) ∧
      createOrUpdateRoleBinding IsNotFound kubeClient addonName clusterName s = some (err, s2) ∧
      (acts = [Action.get clusterName roleBindingName] ∨
        (∃ obj, acts = [Action.get clusterName roleBindingName,
                        Action.create clusterName obj]) ∨
        (∃ obj, acts = [Action.get clusterName roleBindingName,
                        Action.update clusterName obj])) := by
  obtain ⟨d, hd⟩ : ∃ d, acmRoleBinding addonName clusterName = some d :=
    ⟨_, acmRoleBinding_eq addonName clusterName⟩
  have hplain := recording_run IsNotFound kubeClient addonName clusterName s []
  rcases hget : kubeClient.Get clusterName roleBindingName s with ⟨r, s1⟩
  cases r with
  | error e =>
    cases hnf : IsNotFound e with
    | false =>
      have hrun := run_get_failed IsNotFound kubeClient addonName clusterName s s1 [] e hget hnf
      rw [hrun] at hplain
      exact ⟨_, _, _, hrun, by simpa using hplain.symm, Or.inl (by simp)⟩
    | true =>
      have hrun := run_create IsNotFound kubeClient addonName clusterName s s1 [] e d hd hget hnf
      rw [hrun] at hplain
      exact ⟨_, _, _, hrun, by simpa using hplain.symm, Or.inr (Or.inl ⟨d, by simp⟩)⟩
  | ok b =>
    cases hneed : (compareAndOverwrite d b).1 with
    | false =>
      have hrun := run_unchanged IsNotFound kubeClient addonName clusterName s s1 [] b d hd
        hget hneed
      rw [hrun] at hplain
      exact ⟨_, _, _, hrun, by simpa using hplain.symm, Or.inl (by simp)⟩
    | true =>
      have hrun := run_update IsNotFound kubeClient addonName clusterName s s1 [] b d hd
        hget hneed
      rw [hrun] at hplain
      exact ⟨_, _, _, hrun, by simpa using hplain.symm, Or.inr (Or.inr ⟨(compareAndOverwrite d b).2, by simp⟩)⟩

/-- C9: whenever a run issues an Update, Get had returned an object and the
object sent is that object with roleRef and subjects set to the desired ones:
its type and object metadata (name, namespace, labels, annotations,
resourceVersion and the rest) are those of the fetched object, and a roleRef or
subjects that already equalled the desired value is unchanged. -/
theorem update_keeps_other_fields {ε σ : Type} (IsNotFound : ε → Bool)
    (kubeClient : RoleBindingInterface ε σ) (addonName clusterName : String) (s : σ)
    (acts : List Action) (ns : String) (obj : RoleBinding)
    (hacts : Actions IsNotFound kubeClient addonName clusterName s = some acts)
    (hmem : Action.update ns obj ∈ acts) :
    ∃ binding s1 desired,
      kubeClient.Get clusterName roleBindingName s = (Except.ok binding, s1) ∧
      acmRoleBinding addonName clusterName = some desired ∧
      ns = clusterName ∧
      obj = { binding with RoleRef := desired.RoleRef, Subjects := desired.Subjects } ∧
      obj.TypeMeta = binding.TypeMeta ∧ obj.ObjectMeta = binding.ObjectMeta ∧
      (desired.RoleRef = binding.RoleRef → obj.RoleRef = binding.RoleRef) ∧
      (desired.Subjects = binding.Subjects → obj.Subjects = binding.Subjects) := by
  obtain ⟨d, hd⟩ : ∃ d, acmRoleBinding addonName clusterName = some d :=
    ⟨_, acmRoleBinding_eq addonName clusterName⟩
  unfold Actions at hacts
  rcases hget : kubeClient.Get clusterName roleBindingName s with ⟨r, s1⟩
  cases r with
  | error e =>
    cases hnf : IsNotFound e with
    | false =>
      rw [run_get_failed IsNotFound kubeClient addonName clusterName s s1 [] e hget hnf] at hacts
      simp at hacts
      subst hacts
      simp at hmem
    | true =>
      rw [run_create IsNotFound kubeClient addonName clusterName s s1 [] e d hd hget hnf]
        at hacts
      simp at hacts
      subst hacts
      simp at hmem
  | ok b =>
    cases hneed : (compareAndOverwrite d b).1 with
    | false =>
      rw [run_unchanged IsNotFound kubeClient addonName clusterName s s1 [] b d hd hget hneed]
        at hacts
      simp at hacts
      subst hacts
      simp at hmem
    | true =>
      rw [run_update IsNotFound kubeClient addonName clusterName s s1 [] b d hd hget hneed]
        at hacts
      simp at hacts
      subst hacts
      simp at hmem
      obtain ⟨hns, hobj⟩ := hmem
      rw [compareAndOverwrite_snd] at hobj
      subst hobj
      exact ⟨b, s1, d, rfl, hd, hns, rfl, rfl, rfl, fun h => h, fun h => h⟩

/-- Witness of C9: the test "update rolebinding", with a label and a resource
version on the stored object. -/
theorem update_keeps_other_fields_witness :
    (Actions IsNotFound (storeClient Faults.never) "work-manager" "cluster1"
        (Store.empty.put labelledUpdateObject) =
      some [Action.get "cluster1" roleBindingName,
        Action.update "cluster1"
          { labelledUpdateObject with Subjects := testNoUpdateObject.Subjects }]) ∧
    (Action.update "cluster1"
        { labelledUpdateObject with Subjects := testNoUpdateObject.Subjects } ∈
      [Action.get "cluster1" roleBindingName,
        Action.update "cluster1"
          { labelledUpdateObject with Subjects := testNoUpdateObject.Subjects }]) ∧
    ∃ binding s1 desired,
      (storeClient Faults.never).Get "cluster1" roleBindingName
        (Store.empty.put labelledUpdateObject) = (Except.ok binding, s1) ∧
      acmRoleBinding "work-manager" "cluster1" = some desired ∧
      "cluster1" = "cluster1" ∧
      ({ labelledUpdateObject with Subjects := testNoUpdateObject.Subjects } : RoleBinding) =
        { binding with RoleRef := desired.RoleRef, Subjects := desired.Subjects } ∧
      ({ labelledUpdateObject with Subjects := testNoUpdateObject.Subjects } :
          RoleBinding).TypeMeta = binding.TypeMeta ∧
      ({ labelledUpdateObject with Subjects := testNoUpdateObject.Subjects } :
          RoleBinding).ObjectMeta = binding.ObjectMeta ∧
      (desired.RoleRef = binding.RoleRef →
        ({ labelledUpdateObject with Subjects := testNoUpdateObject.Subjects } :
          RoleBinding).RoleRef = binding.RoleRef) ∧
      (desired.Subjects = binding.Subjects →
        ({ labelledUpdateObject with Subjects := testNoUpdateObject.Subjects } :
          RoleBinding).Subjects = binding.Subjects) :=
  ⟨rfl, List.mem_cons_of_mem _ (List.mem_cons_self _ _),
    update_keeps_other_fields IsNotFound (storeClient Faults.never) "work-manager" "cluster1"
      _ _ "cluster1" _ rfl (List.mem_cons_of_mem _ (List.mem_cons_self _ _))⟩

/-! ## Runs over the store -/

/-- C5: idempotence over the store (Get returns the stored object or NotFound; a
successful Create or Update stores the object it was given under that
object's name and namespace). If a first run returns nil, leaving store s1,
then a second run with the same arguments issues the Get alone, returns nil and
leaves s1 as it is; and s1 holds, under the key ("managed-cluster-workmgr",
clusterName) that the second Get looks up, an object with the desired roleRef
and subjects. -/
theorem second_run_writes_nothing (f1 : Faults)
    (create2 update2 : String → RoleBinding → Option StatusError)
    (addonName clusterName : String) (s s1 : Store)
    (hfirst : createOrUpdateRoleBinding IsNotFound (storeClient f1) addonName clusterName s =
      some (none, s1)) :
    createOrUpdateRoleBinding IsNotFound
        (recording (storeClient (Faults.onWrites create2 update2)))
        addonName clusterName (s1, []) =
      some (none, (s1, [Action.get clusterName roleBindingName])) ∧
    ∃ desired stored, acmRoleBinding addonName clusterName = some desired ∧
      s1.objects clusterName "managed-cluster-workmgr" = some stored ∧
      stored.ObjectMeta.Name = desired.ObjectMeta.Name ∧
      stored.ObjectMeta.Namespace = desired.ObjectMeta.Namespace ∧
      stored.RoleRef = desired.RoleRef ∧ stored.Subjects = desired.Subjects := by
  obtain ⟨d, hd⟩ : ∃ d, acmRoleBinding addonName clusterName = some d :=
    ⟨_, acmRoleBinding_eq addonName clusterName⟩
  have hdm := acmRoleBinding_meta addonName clusterName d hd
  obtain ⟨err, u, hkey, hnil, hrun⟩ := store_run_spec f1 addonName clusterName s d hd
  have h1 := hrun s rfl
  rw [hfirst] at h1
  simp only [Option.some.injEq, Prod.mk.injEq] at h1
  obtain ⟨herr, hs1⟩ := h1
  have hstored : ∃ o, s1.objects clusterName roleBindingName = some o ∧
      o.RoleRef = d.RoleRef ∧ o.Subjects = d.Subjects := by
    rcases hnil herr.symm with ⟨obj, hu, hr, hsub⟩ | ⟨hu, o, ho, hr, hsub⟩
    · obtain ⟨hns, hname⟩ := hkey obj hu
      refine ⟨obj, ?_, hr, hsub⟩
      rw [hs1, hu]
      simp only [Option.elim]
      rw [← hns, ← hname]
      exact Store.put_same s obj
    · refine ⟨o, ?_, hr, hsub⟩
      rw [hs1, hu]
      exact ho
  obtain ⟨o, ho, hr, hsub⟩ := hstored
  have hk := s1.keyed clusterName roleBindingName o ho
  refine ⟨?_, d, o, hd, ho, ?_, ?_, hr, hsub⟩
  · have hget : (storeClient (Faults.onWrites create2 update2)).Get clusterName
        roleBindingName s1 = (Except.ok o, s1) := by
      simp [storeClient, Faults.onWrites, ho]
    have hneed : (compareAndOverwrite d o).1 = false :=
      (compareAndOverwrite_fst_false d o).2 ⟨hr.symm, hsub.symm⟩
    simpa using run_unchanged IsNotFound _ addonName clusterName s1 s1 [] o d hd hget hneed
  · rw [hk.2, hdm.2]
  · rw [hk.1, hdm.1]

/-- Witness of C5: the first run updates the object of the test "update
rolebinding". -/
theorem second_run_writes_nothing_witness :
    (createOrUpdateRoleBinding IsNotFound (storeClient Faults.never) "work-manager" "cluster1"
        (Store.empty.put testUpdateObject) =
      some (none, (Store.empty.put testUpdateObject).put testNoUpdateObject)) ∧
    (createOrUpdateRoleBinding IsNotFound
        (recording (storeClient (Faults.onWrites (fun _ _ => none) (fun _ _ => none))))
        "work-manager" "cluster1" ((Store.empty.put testUpdateObject).put testNoUpdateObject, [])
        =
      some (none, ((Store.empty.put testUpdateObject).put testNoUpdateObject,
        [Action.get "cluster1" roleBindingName])) ∧
    ∃ desired stored, acmRoleBinding "work-manager" "cluster1" = some desired ∧
      ((Store.empty.put testUpdateObject).put testNoUpdateObject).objects "cluster1"
        "managed-cluster-workmgr" = some stored ∧
      stored.ObjectMeta.Name = desired.ObjectMeta.Name ∧
      stored.ObjectMeta.Namespace = desired.ObjectMeta.Namespace ∧
      stored.RoleRef = desired.RoleRef ∧ stored.Subjects = desired.Subjects) :=
  ⟨rfl,
    second_run_writes_nothing Faults.never (fun _ _ => none) (fun _ _ => none) "work-manager"
      "cluster1" (Store.empty.put testUpdateObject)
      ((Store.empty.put testUpdateObject).put testNoUpdateObject) rfl⟩

/-- C8: over the store keyed by (namespace, name), a run for clusterName reads
and writes only the key ("managed-cluster-workmgr", clusterName). Whatever the
outcome, every other key holds after the run what it held before; the returned
error and the object left under the key are the same on any store that holds
the same object under that key; and runs for two different cluster names
commute: either order returns the same two errors and leaves the same store. -/
theorem only_own_key_touched (f : Faults) (addonName clusterName : String) (s : Store) :
    (∃ err s2,
      createOrUpdateRoleBinding IsNotFound (storeClient f) addonName clusterName s =
        some (err, s2) ∧
      ∀ ns name, ¬ (ns = clusterName ∧ name = "managed-cluster-workmgr") →
        s2.objects ns name = s.objects ns name) ∧
    (∀ t : Store,
      t.objects clusterName "managed-cluster-workmgr" =
        s.objects clusterName "managed-cluster-workmgr" →
      (createOrUpdateRoleBinding IsNotFound (storeClient f) addonName clusterName t).map
          (fun r => (r.1, r.2.objects clusterName "managed-cluster-workmgr")) =
        (createOrUpdateRoleBinding IsNotFound (storeClient f) addonName clusterName s).map
          (fun r => (r.1, r.2.objects clusterName "managed-cluster-workmgr"))) ∧
    (∀ (f2 : Faults) (addon2 cluster2 : String), cluster2 ≠ clusterName →
      ∃ err1 err2 final,
        (createOrUpdateRoleBinding IsNotFound (storeClient f) addonName clusterName s).bind
            (fun r1 =>
              (createOrUpdateRoleBinding IsNotFound (storeClient f2) addon2 cluster2 r1.2).map
                (fun r2 => (r1.1, r2.1, r2.2))) =
          some (err1, err2, final) ∧
        (createOrUpdateRoleBinding IsNotFound (storeClient f2) addon2 cluster2 s).bind
            (fun r2 =>
              (createOrUpdateRoleBinding IsNotFound (storeClient f) addonName clusterName
                  r2.2).map
                (fun r1 => (r1.1, r2.1, r1.2))) =
          some (err1, err2, final)) := by
  obtain ⟨d, hd⟩ : ∃ d, acmRoleBinding addonName clusterName = some d :=
    ⟨_, acmRoleBinding_eq addonName clusterName⟩
  obtain ⟨err, u, hkey, -, hrun⟩ := store_run_spec f addonName clusterName s d hd
  have hname : roleBindingName = "managed-cluster-workmgr" := rfl
  rw [hname] at hkey hrun
  refine ⟨⟨err, _, hrun s rfl, ?_⟩, ?_, ?_⟩
  · intro ns name hne
    cases u with
    | none => rfl
    | some obj =>
      obtain ⟨hns, hnm⟩ := hkey obj rfl
      apply Store.put_other
      rw [hns, hnm]
      exact hne
  · intro t ht
    rw [hrun t ht, hrun s rfl]
    cases u with
    | none => simpa using ht
    | some obj =>
      obtain ⟨hns, hnm⟩ := hkey obj rfl
      simp only [Option.map_some', Option.elim]
      rw [← hns, ← hnm, Store.put_same, Store.put_same]
  · intro f2 addon2 cluster2 hne
    obtain ⟨d2, hd2⟩ : ∃ d, acmRoleBinding addon2 cluster2 = some d :=
      ⟨_, acmRoleBinding_eq addon2 cluster2⟩
    obtain ⟨err2, u2, hkey2, -, hrun2⟩ := store_run_spec f2 addon2 cluster2 s d2 hd2
    rw [hname] at hkey2 hrun2
    have hagree2 : (u.elim s s.put).objects cluster2 "managed-cluster-workmgr" =
        s.objects cluster2 "managed-cluster-workmgr" := by
      cases u with
      | none => rfl
      | some obj =>
        apply Store.put_other
        rw [(hkey obj rfl).1]
        exact fun h => hne h.1
    have hagree1 : (u2.elim s s.put).objects clusterName "managed-cluster-workmgr" =
        s.objects clusterName "managed-cluster-workmgr" := by
      cases u2 with
      | none => rfl
      | some obj =>
        apply Store.put_other
        rw [(hkey2 obj rfl).1]
        exact fun h => hne h.1.symm
    refine ⟨err, err2, u2.elim (u.elim s s.put) (u.elim s s.put).put, ?_, ?_⟩
    · rw [hrun s rfl]
      simp only [Option.some_bind]
      rw [hrun2 _ hagree2]
      rfl
    · rw [hrun2 s rfl]
      simp only [Option.some_bind]
      rw [hrun _ hagree1]
      simp only [Option.map_some']
      cases u with
      | none => rfl
      | some o1 =>
        cases u2 with
        | none => rfl
        | some o2 =>
          simp only [Option.elim]
          rw [Store.put_comm s o1 o2]
          rw [(hkey o1 rfl).1, (hkey2 o2 rfl).1]
          exact fun h => hne h.symm

/-- Witness of C8: the runs for "cluster1" and "cluster2" on the empty store
commute. -/
theorem only_own_key_touched_witness :
    "cluster2" ≠ "cluster1" ∧
    ∃ err1 err2 final,
      (createOrUpdateRoleBinding IsNotFound (storeClient Faults.never) "work-manager"
          "cluster1" Store.empty).bind
          (fun r1 =>
            (createOrUpdateRoleBinding IsNotFound (storeClient Faults.never) "work-manager"
                "cluster2" r1.2).map
              (fun r2 => (r1.1, r2.1, r2.2))) =
        some (err1, err2, final) ∧
      (createOrUpdateRoleBinding IsNotFound (storeClient Faults.never) "work-manager"
          "cluster2" Store.empty).bind
          (fun r2 =>
            (createOrUpdateRoleBinding IsNotFound (storeClient Faults.never) "work-manager"
                "cluster1" r2.2).map
              (fun r1 => (r1.1, r2.1, r1.2))) =
        some (err1, err2, final) :=
  ⟨by decide,
    (only_own_key_touched Faults.never "work-manager" "cluster1" Store.empty).2.2
      Faults.never "work-manager" "cluster2" (by decide)⟩

/-! ## The values of a cluster -/

/-- The loop of lines 59-63 keeps the global values and sets `IsOCP` exactly
when it meets an OpenShift product claim. -/
theorem claims_loop (claims : List ManagedClusterClaim) (init : Values) :
    (claims.foldl
        (fun addonValues claim =>
          if claim.Name = "product.open-cluster-management.io" ∧ claim.Value = "OpenShift" then
            { addonValues with IsOCP := true }
          else addonValues)
        init).GlobalValues = init.GlobalValues ∧
    ((claims.foldl
        (fun addonValues claim =>
          if claim.Name = "product.open-cluster-management.io" ∧ claim.Value = "OpenShift" then
            { addonValues with IsOCP := true }
          else addonValues)
        init).IsOCP = true ↔
      (init.IsOCP = true ∨ ∃ claim ∈ claims,
        claim.Name = "product.open-cluster-management.io" ∧ claim.Value = "OpenShift")) := by
  induction claims generalizing init with
  | nil => simp
  | cons claim rest ih =>
    rw [List.foldl_cons]
    by_cases h : claim.Name = "product.open-cluster-management.io" ∧ claim.Value = "OpenShift"
    · rw [if_pos h]
      refine ⟨(ih _).1, ?_⟩
      rw [(ih _).2]
      constructor
      · intro _
        exact Or.inr ⟨claim, List.mem_cons_self _ _, h⟩
      · intro _
        exact Or.inl rfl
    · rw [if_neg h]
      refine ⟨(ih _).1, ?_⟩
      rw [(ih _).2]
      constructor
      · rintro (h0 | ⟨cl, hmem, hcl⟩)
        · exact Or.inl h0
        · exact Or.inr ⟨cl, List.mem_cons_of_mem _ hmem, hcl⟩
      · rintro (h0 | ⟨cl, hmem, hcl⟩)
        · exact Or.inl h0
        · rcases List.mem_cons.1 hmem with heq | hrest
          · subst heq
            exact absurd hcl h
          · exact Or.inr ⟨cl, hrest, hcl⟩

/-- The clusters of the tests: `newCluster name ocp` yields IsOCP = ocp. -/
theorem newCluster_isOCP (imageName name : String) (ocp : Bool) :
    (addonValues imageName (newCluster name ocp)).IsOCP = ocp := by
  cases ocp <;> rfl

/-- C10: the values struct built by the function returned from
`NewGetValuesFunc imageName` is what is handed to the serialiser; it has IsOCP
true exactly when the claim list of the cluster holds, at any position, a claim
named "product.open-cluster-management.io" with value "OpenShift"; its global
values are always the single image override "multicloud_manager" -> imageName,
the pull policy "IfNotPresent", the pull secret
"open-cluster-management-image-pull-credentials" and an empty node selector;
and the result is the same for every addon argument. -/
theorem values_of_cluster {ε V : Type} (JsonStructToValues : Values → Except ε V)
    (imageName : String) (cluster : ManagedCluster) (addon : ManagedClusterAddOn) :
    NewGetValuesFunc JsonStructToValues imageName cluster addon =
      JsonStructToValues (addonValues imageName cluster) ∧
    ((addonValues imageName cluster).IsOCP = true ↔
      ∃ claim ∈ cluster.Status.ClusterClaims,
        claim.Name = "product.open-cluster-management.io" ∧ claim.Value = "OpenShift") ∧
    (addonValues imageName cluster).GlobalValues =
      { ImagePullPolicy := "IfNotPresent"
        ImagePullSecret := "open-cluster-management-image-pull-credentials"
        ImageOverrides := [("multicloud_manager", imageName)]
        NodeSelector := [] } ∧
    ∀ addon2 : ManagedClusterAddOn,
      NewGetValuesFunc JsonStructToValues imageName cluster addon2 =
        NewGetValuesFunc JsonStructToValues imageName cluster addon := by
  refine ⟨?_, ?_, ?_, fun _ => rfl⟩
  · unfold NewGetValuesFunc
    cases JsonStructToValues (addonValues imageName cluster) <;> rfl
  · unfold addonValues
    simp only []
    rw [(claims_loop _ _).2]
    simp
  · unfold addonValues
    simp only []
    rw [(claims_loop _ _).1]
    rfl

end Addon
